import Mathlib

set_option maxRecDepth 8000

namespace App

/-- Python strings are modelled as lists of characters. -/
abbrev Str := List Char

/-- The whitespace characters removed by Python's default str.strip. -/
def isPySpace (c : Char) : Bool :=
  c == ' ' || c == '\t' || c == '\n' || c == '\r' || c == '\x0b' || c == '\x0c'

/-- Model of Python str.lstrip with no argument. -/
def pyLstrip (s : Str) : Str := s.dropWhile isPySpace

/-- Model of Python str.rstrip with no argument. -/
def pyRstrip (s : Str) : Str := (s.reverse.dropWhile isPySpace).reverse

/-- Model of Python str.strip with no argument. -/
def pyStrip (s : Str) : Str := pyRstrip (pyLstrip s)

/-- Model of Python str.startswith. -/
def pyStartswith (s p : Str) : Bool := p.isPrefixOf s

/-- Model of Python str.endswith. -/
def pyEndswith (s p : Str) : Bool := p.isSuffixOf s

/-- Fuel-indexed worker for pyReplace. -/
def pyReplaceAux (old new : Str) : Nat → Str → Str
  | 0, s => s
  | fuel + 1, s =>
    if old ≠ [] ∧ old.isPrefixOf s then new ++ pyReplaceAux old new fuel (s.drop old.length)
    else
      match s with
      | [] => []
      | c :: rest => c :: pyReplaceAux old new fuel rest

/-- Model of Python str.replace: replaces non-overlapping occurrences of old
by new, scanning left to right. -/
def pyReplace (s old new : Str) : Str := pyReplaceAux old new s.length s

/-- Python literal values, covering the fragment of ast.literal_eval that the
planner responses considered here use: quoted strings (without escape
sequences), integers, and dictionaries. -/
inductive PyLit where
  | str : Str → PyLit
  | int : Int → PyLit
  | dict : List (PyLit × PyLit) → PyLit

/-- Read the body of a quoted string up to the closing quote q.  Escape
sequences are not modelled; the inputs considered contain none. -/
def parseStrBody (q : Char) : Str → Option (Str × Str)
  | [] => none
  | c :: rest =>
    if c == q then some ([], rest)
    else
      match parseStrBody q rest with
      | some (b, r) => some (c :: b, r)
      | none => none

/-- Numeric value of a decimal digit character. -/
def digitVal (c : Char) : Nat := c.toNat - ('0').toNat

/-- Consume a maximal run of decimal digits, accumulating their value. -/
def readDigits : Str → Nat → Nat × Str
  | [], acc => (acc, [])
  | c :: rest, acc =>
    if c.isDigit then readDigits rest (acc * 10 + digitVal c) else (acc, c :: rest)

mutual

/-- Recursive-descent model of ast.literal_eval over the fragment above.
Whitespace is tolerated between tokens, as in Python.  The Nat argument is
fuel; literalEval below supplies enough fuel for any input. -/
def parseLit : Nat → Str → Option (PyLit × Str)
  | 0, _ => none
  | fuel + 1, s =>
    match pyLstrip s with
    | [] => none
    | c :: rest =>
      if c == '"' || c == '\x27' then
        match parseStrBody c rest with
        | some (b, r) => some (PyLit.str b, r)
        | none => none
      else if c == '\x7b' then
        match pyLstrip rest with
        | '\x7d' :: r => some (PyLit.dict [], r)
        | s2 => parseDictRest fuel s2 []
      else if c == '-' then
        match rest with
        | d :: _ =>
          if d.isDigit then
            let p := readDigits rest 0
            some (PyLit.int (-(p.1 : Int)), p.2)
          else none
        | [] => none
      else if c.isDigit then
        let p := readDigits (c :: rest) 0
        some (PyLit.int (p.1 : Int), p.2)
      else none

/-- Parse the remaining key-value pairs of a dictionary literal. -/
def parseDictRest : Nat → Str → List (PyLit × PyLit) → Option (PyLit × Str)
  | 0, _, _ => none
  | fuel + 1, s, acc =>
    match parseLit fuel s with
    | none => none
    | some (k, r1) =>
      match pyLstrip r1 with
      | ':' :: r2 =>
        match parseLit fuel r2 with
        | none => none
        | some (v, r3) =>
          match pyLstrip r3 with
          | ',' :: r4 => parseDictRest fuel r4 (acc ++ [(k, v)])
          | '\x7d' :: r4 => some (PyLit.dict (acc ++ [(k, v)]), r4)
          | _ => none
      | _ => none

end

/-- Model of ast.literal_eval on a whole string: parse one literal and demand
that only whitespace remains.  Returns none where Python raises. -/
def literalEval (s : Str) : Option PyLit :=
  match parseLit (2 * s.length + 4) s with
  | some (v, rest) => if (pyLstrip rest).isEmpty then some v else none
  | none => none

/-- Lines 169 to 173 of src/app/langgraph_nodes.py: the fence stripping done
by suggest_plots before parsing.  Note the asymmetry of the source: only the
opening fence spelled exactly three backticks followed by the word json is
removed, while any trailing three backticks are removed. -/
def stripFences (raw : Str) : Str :=
  let fence := ("```json").toList
  let raw1 := if pyStartswith raw fence then pyStrip (raw.drop fence.length) else raw
  let ticks := ("```").toList
  if pyEndswith raw1 ticks then pyStrip (raw1.take (raw1.length - ticks.length)) else raw1

/-- Line 176 of src/app/langgraph_nodes.py composed with the stripping above:
what suggest_plots stores into the visuals field, none when ast.literal_eval
raises. -/
def suggestPlotsParse (raw : Str) : Option PyLit := literalEval (stripFences raw)

/-- A response wrapped in a json-dialect fenced code block. -/
def fenceWrap (s : Str) : Str := ("```json\n").toList ++ s ++ ("\n```").toList

/-- A response wrapped in a plain fenced code block with no language tag. -/
def plainWrap (s : Str) : Str := ("```\n").toList ++ s ++ ("\n```").toList

/-- A planner response text that is a well-formed mapping literal of the
documented shape. -/
def goodText : Str :=
  ("\x7b\"chart1\": \x7b\"plot\": \"f\", \"description\": \"d\"\x7d\x7d").toList

/-- The value ast.literal_eval yields for goodText. -/
def goodLit : PyLit :=
  PyLit.dict [(PyLit.str (("chart1").toList),
    PyLit.dict [(PyLit.str (("plot").toList), PyLit.str (("f").toList)),
                (PyLit.str (("description").toList), PyLit.str (("d").toList))])]

/-- A well-formed mapping literal that does not have the documented
plot-and-description shape. -/
def badLit : PyLit :=
  PyLit.dict [(PyLit.str (("chart1").toList),
    PyLit.dict [(PyLit.str (("foo").toList), PyLit.int 0)])]

/-- Whether a literal is a string. -/
def isStrLit : PyLit → Bool
  | PyLit.str _ => true
  | _ => false

/-- Whether a literal is the string s. -/
def isStrEq : PyLit → Str → Bool
  | PyLit.str t, s => t == s
  | _, _ => false

/-- Modelled from the spec: a chart-specification value must be an object
with exactly the two fields plot and description, both strings.  The two
accepted key orders cover JSON object semantics. -/
def specShapedValue : PyLit → Bool
  | PyLit.dict [(k1, v1), (k2, v2)] =>
    ((isStrEq k1 (("plot").toList) && isStrEq k2 (("description").toList)) ||
     (isStrEq k1 (("description").toList) && isStrEq k2 (("plot").toList))) &&
    isStrLit v1 && isStrLit v2
  | _ => false

/-- Modelled from the spec: the planner output must be a mapping whose keys
are strings and whose values are objects of the shape above. -/
def specShapedMapping : PyLit → Bool
  | PyLit.dict entries => entries.all fun kv => isStrLit kv.1 && specShapedValue kv.2
  | _ => false

/-- Line 193 of src/app/langgraph_nodes.py: the keys of the locals dictionary
passed to exec. -/
def localScopeNames : List Str := [("df").toList, ("plt").toList, ("pd").toList]

/-- Line 195 of src/app/langgraph_nodes.py: exec is called with an empty
globals dictionary. -/
def execGlobalsNames : List Str := []

/-- Python exec semantics, from the language reference for exec: when the
supplied globals mapping has no entry for the key spelled double-underscore
builtins, the interpreter inserts a reference to the builtins module under
that key before the code runs.  The executed code therefore sees the locals
bindings, the globals bindings, and that inserted entry. -/
def execVisibleNames (globalsNames localsNames : List Str) : List Str :=
  (if ("__builtins__").toList ∈ globalsNames then globalsNames
   else globalsNames ++ [("__builtins__").toList]) ++ localsNames

/-- Two members of the Python builtins namespace that grant filesystem
access and module loading, hence network access. -/
def builtinsMembers : List Str := [("open").toList, ("__import__").toList]

/-- Names reachable by the executed code: the visible bindings, plus the
contents of builtins whenever the builtins entry is visible. -/
def execReachableNames (globalsNames localsNames : List Str) : List Str :=
  execVisibleNames globalsNames localsNames ++
  (if ("__builtins__").toList ∈ execVisibleNames globalsNames localsNames
   then builtinsMembers else [])

/-- A sheet's tabular dataset: named columns of values.  The column values
are arbitrary for these claims; integers suffice. -/
abbrev DataFrame := List (Str × List Int)

/-- One chart specification as make_plots consumes it: a dictionary in which
the plot and description keys may each be absent (lines 189 and 190 use
dict.get with an empty-string default). -/
structure ChartSpec where
  plot : Option Str
  description : Option Str
deriving DecidableEq

/-- The observable effect of exec on one chart's code string (line 195).
creates is the number of matplotlib figures the code registers before it
finishes or raises; raises says whether the exec call raises; dfEffect is the
net in-place mutation the code applies to the dataframe bound as df.  The
dataframe is passed into the locals dictionary by reference with no copy, so
executed code can mutate it (for example with inplace pandas operations);
dfEffect records that possibility. -/
structure ExecEffect where
  creates : Nat
  raises : Bool
  dfEffect : DataFrame → DataFrame

/-- The state threaded through the renderer loop of make_plots.  registry
models the process-global matplotlib figure registry as the ascending list of
open figure numbers: matplotlib numbers a fresh figure strictly above every
open one, so the model's never-reused counter induces the same highest-is-
most-recent order that the source's figs list relies on.  pages is the
per-sheet list captured into images_with_descriptions, each entry a figure
number with its caption.  df is the dataframe bound into the executed code's
scope. -/
structure RenderState where
  registry : List Nat
  counter : Nat
  pages : List (Nat × Str)
  df : DataFrame
deriving DecidableEq

/-- Line 189: the code string actually executed for a chart, the plot field
defaulted to the empty string and interactive show calls stripped. -/
def chartCode (c : ChartSpec) : Str :=
  pyReplace (c.plot.getD []) (("plt.show()").toList) []

/-- Figure numbers assigned to k figures created in sequence starting at the
given counter. -/
def newFigs (counter k : Nat) : List Nat := (List.range k).map (counter + ·)

/-- Lines 188 to 211 of src/app/langgraph_nodes.py, one loop iteration: run
the chart's code, and on success capture the most recently created open
figure, append it to the page list with the chart's description, and close
exactly that figure.  On an exec exception the loop continues with the
figures the code created still registered; when no figure is open nothing is
captured. -/
def processChart (es : Str → ExecEffect) (s : RenderState) (c : ChartSpec) : RenderState :=
  let eff := es (chartCode c)
  let s1 : RenderState :=
    { registry := s.registry ++ newFigs s.counter eff.creates,
      counter := s.counter + eff.creates,
      pages := s.pages,
      df := eff.dfEffect s.df }
  if eff.raises then s1
  else
    match s1.registry.getLast? with
    | some fig =>
      { s1 with pages := s1.pages ++ [(fig, c.description.getD [])],
                registry := s1.registry.dropLast }
    | none => s1

/-- The chart loop of make_plots folded over a sheet's chart specifications
in insertion order. -/
def chartsFold (es : Str → ExecEffect) (s : RenderState) (l : List (Str × ChartSpec)) : RenderState :=
  l.foldl (fun st c => processChart es st c.2) s

/-- One per-sheet record, the SheetState TypedDict of the source restricted
to the fields these claims touch.  insights and pdf_path are unset until
their stages run. -/
structure SheetState where
  sheet_name : Str
  df : DataFrame
  insights : Option Str
  visuals : List (Str × ChartSpec)
  pdf_path : Option Str
deriving DecidableEq

/-- Exceptions that escape a pipeline stage. -/
inductive RunError where
  | writeFail : Str → RunError
  | callFail : Str → RunError
  | parseFail : RunError
deriving DecidableEq

/-- Line 213 and line 237: the report is written under the sheet's name plus
the pdf extension inside the report directory, and pdf_path receives the base
name of that path, which for separator-free sheet names is the sheet name
plus the extension. -/
def reportName (name : Str) : Str := name ++ (".pdf").toList

/-- Lines 185 to 239, one sheet: run every chart, then build the canvas from
the captured pages and save it.  Saving is modelled by writeOk, true when the
output artifact can be persisted; the source wraps no try around the canvas
operations, so a failed save raises out of make_plots.  On success pdf_path
is set unconditionally, with however many pages were captured, possibly
zero. -/
def processSheet (es : Str → ExecEffect) (writeOk : Str → Bool)
    (rs : RenderState) (sheet : SheetState) : Except RunError (SheetState × RenderState) :=
  let final := chartsFold es { rs with pages := [], df := sheet.df } sheet.visuals
  if writeOk (reportName sheet.sheet_name) then
    Except.ok ({ sheet with df := final.df, pdf_path := some (reportName sheet.sheet_name) },
               { final with pages := [] })
  else
    Except.error (RunError.writeFail (reportName sheet.sheet_name))

/-- The whole of make_plots: the sheets processed in order, the figure
registry threaded across sheets because it is process-global state.  An
exception from any sheet propagates immediately, abandoning the remaining
sheets. -/
def make_plots (es : Str → ExecEffect) (writeOk : Str → Bool) :
    RenderState → List SheetState → Except RunError (List SheetState)
  | _, [] => Except.ok []
  | rs, sheet :: rest =>
    match processSheet es writeOk rs sheet with
    | Except.error e => Except.error e
    | Except.ok (s2, rs2) => (make_plots es writeOk rs2 rest).map (fun l => s2 :: l)

/-- Lines 80 to 95 of src/app/main.py: the upload endpoint runs the workflow
and, when it succeeds, returns the ordered sheet-name and report-base-name
pairs; when any stage raises it returns a single run-level failure and no
report list. -/
def upload_result (es : Str → ExecEffect) (writeOk : Str → Bool)
    (sheets : List SheetState) : Except RunError (List (Str × Str)) :=
  (make_plots es writeOk ⟨[], 0, [], []⟩ sheets).map
    (List.map fun s => (s.sheet_name, s.pdf_path.getD []))

/-- Lines 60 to 112 of src/app/langgraph_nodes.py: generate_insights makes
one chat-completion call per sheet, in order; calls gives the outcome of the
i-th call.  An exception from the client propagates out of the stage; a
successful response is stored as the sheet's insights verbatim, with no check
that it is non-empty. -/
def generate_insights (calls : Nat → Except Str Str) :
    List SheetState → Nat → Except RunError (List SheetState)
  | [], _ => Except.ok []
  | sheet :: rest, k =>
    match calls k with
    | Except.error msg => Except.error (RunError.callFail msg)
    | Except.ok resp =>
      (generate_insights calls rest (k + 1)).map
        (fun l => { sheet with insights := some resp } :: l)

/-- The sheets with insights set from the k-th response onward; the expected
output of a fully successful generate_insights pass. -/
def setInsights (resp : Nat → Str) : List SheetState → Nat → List SheetState
  | [], _ => []
  | sheet :: rest, k => { sheet with insights := some (resp k) } :: setInsights resp rest (k + 1)

/-- Lines 116 to 180 of src/app/langgraph_nodes.py: suggest_plots makes one
chat-completion call per sheet, strips fences from the i-th raw response and
stores the ast.literal_eval result, whatever its shape; a parse failure
raises out of the stage. -/
def suggest_plots_stage (responses : Nat → Str) :
    List SheetState → Nat → Except RunError (List (SheetState × PyLit))
  | [], _ => Except.ok []
  | sheet :: rest, k =>
    match suggestPlotsParse (responses k) with
    | none => Except.error RunError.parseFail
    | some v => (suggest_plots_stage responses rest (k + 1)).map (fun l => (sheet, v) :: l)

/-- The sheets paired with the literal parsed from the k-th response onward;
the expected output of a fully successful suggest_plots pass. -/
def attachLits (vs : Nat → PyLit) : List SheetState → Nat → List (SheetState × PyLit)
  | [], _ => []
  | sheet :: rest, k => (sheet, vs k) :: attachLits vs rest (k + 1)

/-- An empty renderer start state: no open figures, as at process start. -/
def rs0 : RenderState := ⟨[], 0, [], []⟩

/-- An execution oracle for chart code that does nothing: no figure, no
exception, no dataframe mutation.  In particular it gives the empty code
string the semantics Python gives it. -/
def execNop : Str → ExecEffect := fun _ => ⟨0, false, id⟩

/-- A report store that accepts every write. -/
def allowAllWrites : Str → Bool := fun _ => true

/-- An oracle under which the code string A creates one figure and then
raises, and all other code runs without effect. -/
def esRaise : Str → ExecEffect :=
  fun code => if code == ("A").toList then ⟨1, true, id⟩ else ⟨0, false, id⟩

/-- An oracle under which the code string C creates two figures and
succeeds, and all other code runs without effect. -/
def esTwo : Str → ExecEffect :=
  fun code => if code == ("C").toList then ⟨2, false, id⟩ else ⟨0, false, id⟩

/-- A tiny dataset with one column. -/
def dfA : DataFrame := [(("a").toList, [1])]

/-- An oracle under which the code string M empties the dataframe in place,
as for example a pandas drop with inplace set would, and all other code runs
without effect. -/
def esMut : Str → ExecEffect :=
  fun code => if code == ("M").toList then ⟨0, false, fun _ => []⟩ else ⟨0, false, id⟩

/-- A sheet whose single chart runs the mutating code string M. -/
def sheetM : SheetState :=
  ⟨("Sheet1").toList, dfA, none, [(("chart1").toList, ⟨some (("M").toList), none⟩)], none⟩

/-- A bare sheet record as it stands before the insight stage. -/
def testSheet : SheetState := ⟨("Sheet1").toList, [], none, [], none⟩

/-- Two charts: the first raises after creating a figure, the second runs
cleanly but creates no figure. -/
def chartsAB : List (Str × ChartSpec) :=
  [(("chart1").toList, ⟨some (("A").toList), some (("d1").toList)⟩),
   (("chart2").toList, ⟨some (("B").toList), some (("d2").toList)⟩)]

/-- One chart whose code creates two figures. -/
def chartTwoFigs : List (Str × ChartSpec) :=
  [(("chart1").toList, ⟨some (("C").toList), some (("x").toList)⟩)]

/-- A chart that creates two figures followed by a chart specification with
no plot and no description field. -/
def chartsLeakMissing : List (Str × ChartSpec) :=
  [(("chart1").toList, ⟨some (("C").toList), some (("x").toList)⟩),
   (("chart2").toList, ⟨none, none⟩)]

/-- Sheets named A, B and C with no charts. -/
def sheetA : SheetState := ⟨("A").toList, [], none, [], none⟩

/-- Second bare sheet. -/
def sheetB : SheetState := ⟨("B").toList, [], none, [], none⟩

/-- Third bare sheet. -/
def sheetC : SheetState := ⟨("C").toList, [], none, [], none⟩

/-- A report store that fails exactly on sheet A's report. -/
def woFailA : Str → Bool := fun f => !(f == ("A.pdf").toList)

/-- C6 counterexample: the claim that the evaluation context exposes exactly
the three bindings df, plt and pd is false at the source's exec call: Python
inserts the builtins entry into the empty globals dictionary, so a fourth
binding is visible and through it the open builtin is reachable, giving the
executed code filesystem access. -/
theorem exec_context_counterexample :
    execVisibleNames execGlobalsNames localScopeNames ≠ localScopeNames
    ∧ ("open").toList ∈ execReachableNames execGlobalsNames localScopeNames := by
  decide

/-- C6 (amended): the locals dictionary passed to exec binds exactly df, plt
and pd, but the empty globals dictionary receives the builtins entry, so the
executed code sees four bindings and can reach open and the import builtin,
hence the binding set does not preclude filesystem or network access. -/
theorem exec_context_builtins_amended :
    localScopeNames = [("df").toList, ("plt").toList, ("pd").toList]
    ∧ execVisibleNames execGlobalsNames localScopeNames
        = [("__builtins__").toList, ("df").toList, ("plt").toList, ("pd").toList]
    ∧ ("open").toList ∈ execReachableNames execGlobalsNames localScopeNames
    ∧ ("__import__").toList ∈ execReachableNames execGlobalsNames localScopeNames := by
  decide

/-- C2 counterexample: a valid mapping literal wrapped in a plain fenced code
block with no language tag.  The source strips only an opening fence spelled
with the json tag, yet still strips the closing fence, so the stripped text
begins with three backticks and ast.literal_eval raises: strip-then-parse of
the wrapped text is none while parsing the literal directly succeeds, and
the two disagree. -/
theorem fence_strip_plain_counterexample :
    suggestPlotsParse goodText = some goodLit
    ∧ suggestPlotsParse (plainWrap goodText) = none
    ∧ suggestPlotsParse (plainWrap goodText) ≠ suggestPlotsParse goodText := by
  refine ⟨rfl, rfl, ?_⟩
  intro h
  have h2 : (none : Option PyLit) = some goodLit := h
  exact Option.noConfusion h2

/-- C4 counterexample: a well-formed mapping whose single value lacks the
plot and description fields.  The planner's parse accepts it unchanged, with
no error, although it is not of the documented shape: the planner never
enforces the shape. -/
theorem planner_shape_counterexample :
    suggestPlotsParse (("\x7b\"chart1\": \x7b\"foo\": 0\x7d\x7d").toList) = some badLit
    ∧ specShapedMapping badLit = false := by
  exact ⟨rfl, rfl⟩

/-- C1 counterexample: chart1's code creates figure 0 and then raises, so the
renderer records the failure and moves on with figure 0 still registered;
chart2 runs cleanly but creates no figure, and the capture step then grabs
figure 0 — created by the failing chart — as chart2's page.  The assembled
document's only page therefore shows the failing chart's figure, so the
failing chart is not omitted from the document. -/
theorem renderer_chart_isolation_counterexample :
    (esRaise (chartCode ⟨some (("A").toList), some (("d1").toList)⟩)).raises = true
    ∧ (processChart esRaise rs0 ⟨some (("A").toList), some (("d1").toList)⟩).registry = [0]
    ∧ (chartsFold esRaise rs0 chartsAB).pages = [(0, ("d2").toList)] := by
  exact ⟨rfl, rfl, rfl⟩

/-- C5 counterexample: one chart whose code creates two figures.  The capture
step closes only the most recent figure, so after the renderer finishes
chart 1 the figure numbered 0, created during chart 1, is still registered:
the registry is not drained. -/
theorem figure_hygiene_counterexample :
    (chartsFold esTwo rs0 chartTwoFigs).registry = [0]
    ∧ (chartsFold esTwo rs0 chartTwoFigs).registry ≠ [] := by
  decide

/-- C10 counterexample: after a chart that created two figures leaked figure
0, the following specification with no plot key executes the empty code
string — which indeed raises nothing and creates no figure — but is not
skipped: the leaked figure 0 is captured as its page with the empty caption.
The document has two pages, not only the first chart's page. -/
theorem missing_plot_counterexample :
    (chartsFold esTwo rs0 chartsLeakMissing).pages = [(1, ("x").toList), (0, [])]
    ∧ (chartsFold esTwo rs0 chartsLeakMissing).pages ≠ [(1, ("x").toList)] := by
  decide

/-- C8 counterexample: a chart whose code mutates the dataframe in place.
processSheet succeeds and hands back a sheet record whose dataset is the
mutated, here emptied, dataframe: executing generated chart code does not
leave the sheet's dataset unchanged. -/
theorem dataset_mutation_counterexample :
    processSheet esMut allowAllWrites rs0 sheetM
      = Except.ok ({ sheetM with df := [], pdf_path := some (reportName (("Sheet1").toList)) },
                   ⟨[], 0, [], []⟩)
    ∧ ([] : DataFrame) ≠ dfA := by
  refine ⟨rfl, ?_⟩
  decide

/-- C9 counterexample: when the chat-completion call returns an empty
response, generate_insights succeeds and stores the empty text as the
sheet's insights; it does not fail, although the claim requires a
model-invocation failure on an empty response. -/
theorem insight_empty_response_counterexample :
    generate_insights (fun _ => Except.ok []) [testSheet] 0
      = Except.ok [{ testSheet with insights := some [] }]
    ∧ ∀ e, generate_insights (fun _ => Except.ok []) [testSheet] 0 ≠ Except.error e := by
  refine ⟨rfl, ?_⟩
  intro e h
  exact Except.noConfusion
    ((rfl : generate_insights (fun _ => Except.ok []) [testSheet] 0
        = Except.ok [{ testSheet with insights := some [] }]).symm.trans h)

/-- C3 counterexample: two sheets where sheet A's report cannot be persisted.
The run-level result is a single failure — not the ordered pair list omitting
sheet A — so a report-write error is not confined to its own sheet. -/
theorem report_write_error_counterexample :
    upload_result execNop woFailA [sheetA, sheetB]
      = Except.error (RunError.writeFail (("A.pdf").toList))
    ∧ upload_result execNop woFailA [sheetA, sheetB]
        ≠ Except.ok [(("B").toList, ("B.pdf").toList)] := by
  refine ⟨rfl, ?_⟩
  intro h
  have h2 : Except.error (ε := RunError) (RunError.writeFail (("A.pdf").toList))
      = Except.ok [(("B").toList, ("B.pdf").toList)] :=
    (rfl : upload_result execNop woFailA [sheetA, sheetB]
        = Except.error (RunError.writeFail (("A.pdf").toList))).symm.trans h
  exact Except.noConfusion h2

/-- When the report store accepts the write, processSheet returns the updated
sheet together with the renderer state left by its charts. -/
theorem processSheet_ok (es : Str → ExecEffect) (wo : Str → Bool)
    (rs : RenderState) (sheet : SheetState)
    (hw : wo (reportName sheet.sheet_name) = true) :
    processSheet es wo rs sheet
      = Except.ok
          ({ sheet with
              df := (chartsFold es { rs with pages := [], df := sheet.df } sheet.visuals).df,
              pdf_path := some (reportName sheet.sheet_name) },
           { chartsFold es { rs with pages := [], df := sheet.df } sheet.visuals with
              pages := [] }) := by
  simp [processSheet, hw]

/-- C7: degraded sheets still yield a report.  Whatever the charts did —
none captured, all raised, or anything else — once the write is accepted the
sheet's record comes back successfully with pdf_path set to the sheet name
plus the report extension. -/
theorem sheet_always_reports (es : Str → ExecEffect) (wo : Str → Bool)
    (rs : RenderState) (sheet : SheetState)
    (hw : wo (reportName sheet.sheet_name) = true) :
    ∃ out, processSheet es wo rs sheet = Except.ok out
      ∧ out.1.pdf_path = some (reportName sheet.sheet_name) :=
  ⟨_, processSheet_ok es wo rs sheet hw, rfl⟩

/-- C7 witness: a sheet with one chart whose code raises, so zero charts are
captured; the sheet still produces its report record. -/
theorem sheet_always_reports_witness :
    allowAllWrites (reportName (("Sheet1").toList)) = true
    ∧ ∃ out,
        processSheet (fun _ => ⟨0, true, id⟩) allowAllWrites rs0
          ⟨("Sheet1").toList, [], none,
           [(("chart1").toList, ⟨some (("X").toList), none⟩)], none⟩
          = Except.ok out
        ∧ out.1.pdf_path = some (reportName (("Sheet1").toList)) :=
  ⟨rfl, sheet_always_reports (fun _ => ⟨0, true, id⟩) allowAllWrites rs0
    ⟨("Sheet1").toList, [], none,
     [(("chart1").toList, ⟨some (("X").toList), none⟩)], none⟩ rfl⟩

/-- C1 (amended): when one chart's code raises, the renderer appends no page
at that chart's own iteration, goes on to process all the remaining
specifications from the state the failing chart left behind, and the sheet
still produces its report; however the failing chart can leave figures
registered, so a later chart that creates no figure may capture the failing
chart's figure as its page, meaning the failing chart's figure is not always
omitted from the assembled document. -/
theorem renderer_chart_isolation_amended (es : Str → ExecEffect) (wo : Str → Bool)
    (rs : RenderState) (name : Str) (dfv : DataFrame) (ins pp : Option Str)
    (pre post : List (Str × ChartSpec)) (cn : Str) (c : ChartSpec)
    (hr : (es (chartCode c)).raises = true)
    (hw : wo (reportName name) = true) :
    chartsFold es { rs with pages := [], df := dfv } (pre ++ (cn, c) :: post)
      = chartsFold es
          (processChart es (chartsFold es { rs with pages := [], df := dfv } pre) c) post
    ∧ (processChart es (chartsFold es { rs with pages := [], df := dfv } pre) c).pages
      = (chartsFold es { rs with pages := [], df := dfv } pre).pages
    ∧ ∃ out,
        processSheet es wo rs ⟨name, dfv, ins, pre ++ (cn, c) :: post, pp⟩ = Except.ok out
        ∧ out.1.pdf_path = some (reportName name) := by
  refine ⟨?_, ?_, ?_⟩
  · simp [chartsFold, List.foldl_append]
  · simp [processChart, hr]
  · exact ⟨_, processSheet_ok es wo rs ⟨name, dfv, ins, pre ++ (cn, c) :: post, pp⟩ hw, rfl⟩

/-- C1 witness: one raising chart between two clean ones. -/
theorem renderer_chart_isolation_witness :
    (esRaise (chartCode ⟨some (("A").toList), some (("d1").toList)⟩)).raises = true
    ∧ allowAllWrites (reportName (("Sheet1").toList)) = true
    ∧ (chartsFold esRaise { rs0 with pages := [], df := [] }
         ([(("c0").toList, ⟨some (("B").toList), some (("d0").toList)⟩)]
           ++ (("chart1").toList, ⟨some (("A").toList), some (("d1").toList)⟩)
              :: [(("chart2").toList, ⟨some (("B").toList), some (("d2").toList)⟩)])
        = chartsFold esRaise
            (processChart esRaise
              (chartsFold esRaise { rs0 with pages := [], df := [] }
                [(("c0").toList, ⟨some (("B").toList), some (("d0").toList)⟩)])
              ⟨some (("A").toList), some (("d1").toList)⟩)
            [(("chart2").toList, ⟨some (("B").toList), some (("d2").toList)⟩)]
      ∧ (processChart esRaise
           (chartsFold esRaise { rs0 with pages := [], df := [] }
             [(("c0").toList, ⟨some (("B").toList), some (("d0").toList)⟩)])
           ⟨some (("A").toList), some (("d1").toList)⟩).pages
        = (chartsFold esRaise { rs0 with pages := [], df := [] }
             [(("c0").toList, ⟨some (("B").toList), some (("d0").toList)⟩)]).pages
      ∧ ∃ out,
          processSheet esRaise allowAllWrites rs0
            ⟨("Sheet1").toList, [], none,
             [(("c0").toList, ⟨some (("B").toList), some (("d0").toList)⟩)]
               ++ (("chart1").toList, ⟨some (("A").toList), some (("d1").toList)⟩)
                  :: [(("chart2").toList, ⟨some (("B").toList), some (("d2").toList)⟩)],
             none⟩ = Except.ok out
          ∧ out.1.pdf_path = some (reportName (("Sheet1").toList))) :=
  ⟨rfl, rfl,
   renderer_chart_isolation_amended esRaise allowAllWrites rs0 (("Sheet1").toList) [] none none
     [(("c0").toList, ⟨some (("B").toList), some (("d0").toList)⟩)]
     [(("chart2").toList, ⟨some (("B").toList), some (("d2").toList)⟩)]
     (("chart1").toList) ⟨some (("A").toList), some (("d1").toList)⟩ rfl rfl⟩

/-- A chart step started with an empty registry keeps the registry empty as
long as the chart's code creates at most one figure and raising code creates
none. -/
theorem processChart_keeps_empty (es : Str → ExecEffect) (s : RenderState) (c : ChartSpec)
    (hreg : s.registry = [])
    (h1 : (es (chartCode c)).creates ≤ 1)
    (h2 : (es (chartCode c)).raises = true → (es (chartCode c)).creates = 0) :
    (processChart es s c).registry = [] := by
  cases hr : (es (chartCode c)).raises with
  | true =>
    have hc := h2 hr
    simp [processChart, hr, hc, hreg, newFigs]
  | false =>
    rcases Nat.le_one_iff_eq_zero_or_eq_one.mp h1 with hc | hc
    · simp [processChart, hr, hc, hreg, newFigs]
    · have hr1 : List.range 1 = [0] := rfl
      simp [processChart, hr, hc, hreg, newFigs, hr1]

/-- C5 (amended): the renderer's registry hygiene holds exactly for
well-behaved chart code.  Starting from an empty registry, if every chart's
code creates at most one figure and creates none when it raises, then after
the renderer finishes any sequence of charts no figure remains registered.
Every prefix of a sheet's chart list is an instance, giving the
after-K-charts reading; the counterexample shows the restriction to at most
one created figure cannot be dropped. -/
theorem figure_hygiene_amended (es : Str → ExecEffect) (l : List (Str × ChartSpec))
    (s : RenderState) (hreg : s.registry = [])
    (h : ∀ p ∈ l, (es (chartCode p.2)).creates ≤ 1
        ∧ ((es (chartCode p.2)).raises = true → (es (chartCode p.2)).creates = 0)) :
    (chartsFold es s l).registry = [] := by
  revert hreg h
  induction l generalizing s with
  | nil =>
    intro hreg _
    simpa [chartsFold] using hreg
  | cons p rest ih =>
    intro hreg h
    have hp := h p (List.mem_cons_self p rest)
    have hstep : chartsFold es s (p :: rest) = chartsFold es (processChart es s p.2) rest := by
      simp [chartsFold]
    rw [hstep]
    exact ih (processChart es s p.2) (processChart_keeps_empty es s p.2 hreg hp.1 hp.2)
      (fun q hq => h q (List.mem_cons_of_mem p hq))

/-- C5 witness: a single well-behaved chart whose code creates no figure;
the registry stays drained. -/
theorem figure_hygiene_witness :
    rs0.registry = []
    ∧ (∀ p ∈ [(("chart1").toList, (⟨some (("P").toList), none⟩ : ChartSpec))],
        (execNop (chartCode p.2)).creates ≤ 1
        ∧ ((execNop (chartCode p.2)).raises = true → (execNop (chartCode p.2)).creates = 0))
    ∧ (chartsFold execNop rs0
        [(("chart1").toList, ⟨some (("P").toList), none⟩)]).registry = [] :=
  ⟨rfl, by decide,
   figure_hygiene_amended execNop [(("chart1").toList, ⟨some (("P").toList), none⟩)] rs0 rfl
     (by decide)⟩

/-- C10 (amended): a chart specification lacking the plot key executes the
empty code string, which raises nothing and creates no figure, and with an
empty registry its renderer step changes nothing at all; every specification
lacking the description key — whatever its plot field holds and whatever its
code does — gets the empty caption on any page its step appends; a missing
field never raises and never aborts the sheet.  But the plotless chart is
skipped only when no stale figure is registered at its turn: any page it
does append carries a leaked figure with the empty caption. -/
theorem missing_fields_amended (es : Str → ExecEffect) (s : RenderState) (c : ChartSpec)
    (hes : es [] = ⟨0, false, id⟩) :
    (c.plot = none →
        (es (chartCode c)).raises = false ∧ (es (chartCode c)).creates = 0)
    ∧ (c.plot = none → s.registry = [] → processChart es s c = s)
    ∧ (c.description = none →
        ∀ pg ∈ (processChart es s c).pages, pg ∈ s.pages ∨ pg.2 = ([] : Str)) := by
  have hcode : c.plot = none → chartCode c = [] := by
    intro hplot
    simp [chartCode, hplot, pyReplace, pyReplaceAux]
  refine ⟨?_, ?_, ?_⟩
  · intro hplot
    rw [hcode hplot, hes]
    exact ⟨rfl, rfl⟩
  · intro hplot hreg
    obtain ⟨reg, cnt, pgs, dfv⟩ := s
    simp only at hreg
    subst hreg
    simp [processChart, hcode hplot, hes, newFigs]
  · intro hdesc pg hpg
    simp only [processChart] at hpg
    cases hr : (es (chartCode c)).raises with
    | true =>
      rw [hr] at hpg
      simp at hpg
      exact Or.inl hpg
    | false =>
      rw [hr] at hpg
      simp at hpg
      rcases hlast :
          (newFigs s.counter (es (chartCode c)).creates).getLast?.or s.registry.getLast?
          with _ | fig
      · rw [hlast] at hpg
        simp at hpg
        exact Or.inl hpg
      · rw [hlast] at hpg
        simp [hdesc] at hpg
        rcases hpg with hmem | hnew
        · exact Or.inl hmem
        · exact Or.inr (by simp [hnew])

/-- C10 witness: a chart with a plot but no description, executed by an
oracle that creates a figure, together with the empty-code oracle fact; the
theorem's conjuncts evaluate at this concrete spec and state. -/
theorem missing_fields_witness :
    esTwo [] = ⟨0, false, id⟩
    ∧ (((⟨some (("C").toList), none⟩ : ChartSpec).plot = none →
          (esTwo (chartCode ⟨some (("C").toList), none⟩)).raises = false
          ∧ (esTwo (chartCode ⟨some (("C").toList), none⟩)).creates = 0)
       ∧ ((⟨some (("C").toList), none⟩ : ChartSpec).plot = none → rs0.registry = [] →
           processChart esTwo rs0 ⟨some (("C").toList), none⟩ = rs0)
       ∧ ((⟨some (("C").toList), none⟩ : ChartSpec).description = none →
           ∀ pg ∈ (processChart esTwo rs0 ⟨some (("C").toList), none⟩).pages,
             pg ∈ rs0.pages ∨ pg.2 = ([] : Str))) :=
  ⟨rfl, missing_fields_amended esTwo rs0 ⟨some (("C").toList), none⟩ rfl⟩

/-- One renderer step leaves the dataframe exactly as the executed code's
in-place effect leaves it. -/
theorem processChart_df_eq (es : Str → ExecEffect) (s : RenderState) (c : ChartSpec) :
    (processChart es s c).df = (es (chartCode c)).dfEffect s.df := by
  simp only [processChart]
  split
  · rfl
  · split <;> rfl

/-- Folding the chart loop leaves the dataframe unchanged when no chart's
code mutates it. -/
theorem chartsFold_df_id (es : Str → ExecEffect) (l : List (Str × ChartSpec)) (s : RenderState)
    (h : ∀ p ∈ l, (es (chartCode p.2)).dfEffect = id) :
    (chartsFold es s l).df = s.df := by
  revert h
  induction l generalizing s with
  | nil => intro _; rfl
  | cons p rest ih =>
    intro h
    have h1 := h p (List.mem_cons_self p rest)
    have hstep : chartsFold es s (p :: rest) = chartsFold es (processChart es s p.2) rest := by
      simp [chartsFold]
    rw [hstep, ih (processChart es s p.2) (fun q hq => h q (List.mem_cons_of_mem p hq)),
        processChart_df_eq, h1]
    rfl

/-- C8 (amended): the pipeline's own code never reassigns a sheet's dataset,
so the dataset survives rendering unchanged provided the executed chart code
applies no in-place mutation to the dataframe it is handed; the dataframe is
exposed to the executed code by reference with no read-only protection, so
this proviso — refuted in general by the counterexample — is what remains of
the claim. -/
theorem dataset_immutable_amended (es : Str → ExecEffect) (wo : Str → Bool)
    (rs : RenderState) (sheet : SheetState)
    (h : ∀ p ∈ sheet.visuals, (es (chartCode p.2)).dfEffect = id) :
    ∀ out, processSheet es wo rs sheet = Except.ok out → out.1.df = sheet.df := by
  intro out hout
  cases hw : wo (reportName sheet.sheet_name) with
  | false => simp [processSheet, hw] at hout
  | true =>
    rw [processSheet_ok es wo rs sheet hw] at hout
    have h2 := Except.ok.inj hout
    rw [← h2]
    simpa using chartsFold_df_id es sheet.visuals { rs with pages := [], df := sheet.df } h

/-- C8 witness: a sheet with one non-mutating chart keeps its dataset. -/
theorem dataset_immutable_witness :
    (∀ p ∈ (⟨("Sheet1").toList, dfA, none,
        [(("chart1").toList, ⟨some (("P").toList), none⟩)], none⟩ : SheetState).visuals,
      (execNop (chartCode p.2)).dfEffect = id)
    ∧ ∀ out, processSheet execNop allowAllWrites rs0
        ⟨("Sheet1").toList, dfA, none,
         [(("chart1").toList, ⟨some (("P").toList), none⟩)], none⟩ = Except.ok out →
        out.1.df = (⟨("Sheet1").toList, dfA, none,
          [(("chart1").toList, ⟨some (("P").toList), none⟩)], none⟩ : SheetState).df :=
  ⟨fun _ _ => rfl,
   dataset_immutable_amended execNop allowAllWrites rs0
     ⟨("Sheet1").toList, dfA, none,
      [(("chart1").toList, ⟨some (("P").toList), none⟩)], none⟩ (fun _ _ => rfl)⟩

/-- A failed report write surfaces as the stage's exception no matter how
many successfully written sheets precede it. -/
theorem make_plots_error_aux (es : Str → ExecEffect) (wo : Str → Bool)
    (s : SheetState) (post : List SheetState)
    (hs : wo (reportName s.sheet_name) = false) :
    ∀ (pre : List SheetState) (rs : RenderState),
      (∀ p ∈ pre, wo (reportName p.sheet_name) = true) →
      make_plots es wo rs (pre ++ s :: post)
        = Except.error (RunError.writeFail (reportName s.sheet_name)) := by
  intro pre
  induction pre with
  | nil =>
    intro rs _
    simp [make_plots, processSheet, hs]
  | cons p pre ih =>
    intro rs hpre
    have hp := hpre p (List.mem_cons_self p pre)
    rw [List.cons_append]
    simp only [make_plots]
    rw [processSheet_ok es wo rs p hp]
    simp [ih _ (fun q hq => hpre q (List.mem_cons_of_mem p hq)), Except.map]

/-- C3 (amended): a report-write failure is not caught at the sheet
boundary: the exception propagates out of make_plots, the sheets after the
failing one are never processed, and the run-level result is a single
failure carrying that write error — not the ordered pair list with the
failing sheet omitted. -/
theorem report_write_error_aborts_run (es : Str → ExecEffect) (wo : Str → Bool)
    (rs : RenderState) (pre post : List SheetState) (s : SheetState)
    (hpre : ∀ p ∈ pre, wo (reportName p.sheet_name) = true)
    (hs : wo (reportName s.sheet_name) = false) :
    make_plots es wo rs (pre ++ s :: post)
      = Except.error (RunError.writeFail (reportName s.sheet_name))
    ∧ upload_result es wo (pre ++ s :: post)
      = Except.error (RunError.writeFail (reportName s.sheet_name)) := by
  refine ⟨make_plots_error_aux es wo s post hs pre rs hpre, ?_⟩
  rw [upload_result, make_plots_error_aux es wo s post hs pre _ hpre]
  rfl

/-- C3 witness: the middle sheet of three fails to write; the whole run
fails with that sheet's write error. -/
theorem report_write_error_aborts_run_witness :
    (∀ p ∈ [sheetB], woFailA (reportName p.sheet_name) = true)
    ∧ woFailA (reportName sheetA.sheet_name) = false
    ∧ (make_plots execNop woFailA rs0 ([sheetB] ++ sheetA :: [sheetC])
        = Except.error (RunError.writeFail (reportName sheetA.sheet_name))
       ∧ upload_result execNop woFailA ([sheetB] ++ sheetA :: [sheetC])
        = Except.error (RunError.writeFail (reportName sheetA.sheet_name))) :=
  ⟨by decide, rfl,
   report_write_error_aborts_run execNop woFailA rs0 [sheetB] [sheetC] sheetA (by decide) rfl⟩

/-- generate_insights consults only the call outcomes of its own sheets: one
call per sheet, indexed in order. -/
theorem gi_ext (calls calls2 : Nat → Except Str Str) (sheets : List SheetState) :
    ∀ k, (∀ i, i < sheets.length → calls (k + i) = calls2 (k + i)) →
      generate_insights calls sheets k = generate_insights calls2 sheets k := by
  induction sheets with
  | nil => intro k _; rfl
  | cons sheet rest ih =>
    intro k h
    have h0 : calls k = calls2 k := by simpa using h 0 (by simp)
    have h1 : ∀ i, i < rest.length → calls (k + 1 + i) = calls2 (k + 1 + i) := by
      intro i hi
      have hs := h (i + 1) (by simpa using Nat.succ_lt_succ hi)
      have he : k + (i + 1) = k + 1 + i := by omega
      rw [he] at hs
      exact hs
    simp only [generate_insights]
    rw [h0, ih (k + 1) h1]

/-- A fully successful pass of generate_insights stores each response as the
matching sheet's insights, empty responses included. -/
theorem gi_ok (calls : Nat → Except Str Str) (resp : Nat → Str) (sheets : List SheetState) :
    ∀ k, (∀ i, i < sheets.length → calls (k + i) = Except.ok (resp (k + i))) →
      generate_insights calls sheets k = Except.ok (setInsights resp sheets k) := by
  induction sheets with
  | nil => intro k _; rfl
  | cons sheet rest ih =>
    intro k h
    have h0 : calls k = Except.ok (resp k) := by simpa using h 0 (by simp)
    have h1 : ∀ i, i < rest.length → calls (k + 1 + i) = Except.ok (resp (k + 1 + i)) := by
      intro i hi
      have hs := h (i + 1) (by simpa using Nat.succ_lt_succ hi)
      have he : k + (i + 1) = k + 1 + i := by omega
      rw [he] at hs
      exact hs
    simp only [generate_insights, setInsights]
    rw [h0, ih (k + 1) h1]
    rfl

/-- The first failing call makes generate_insights surface that failure. -/
theorem gi_err (calls : Nat → Except Str Str) (msg : Str) (sheets : List SheetState) :
    ∀ k j, j < sheets.length → calls (k + j) = Except.error msg →
      (∀ i, i < j → ∃ r, calls (k + i) = Except.ok r) →
      generate_insights calls sheets k = Except.error (RunError.callFail msg) := by
  induction sheets with
  | nil =>
    intro k j hj _ _
    exact absurd hj (by simp)
  | cons sheet rest ih =>
    intro k j hj herr hpre
    cases j with
    | zero =>
      have h0 : calls k = Except.error msg := by simpa using herr
      simp only [generate_insights]
      rw [h0]
    | succ j =>
      obtain ⟨r, hr⟩ := hpre 0 (Nat.succ_pos j)
      have h0 : calls k = Except.ok r := by simpa using hr
      have herr2 : calls (k + 1 + j) = Except.error msg := by
        have he : k + (j + 1) = k + 1 + j := by omega
        rw [← he]
        exact herr
      have hpre2 : ∀ i, i < j → ∃ r2, calls (k + 1 + i) = Except.ok r2 := by
        intro i hi
        obtain ⟨r2, hr2⟩ := hpre (i + 1) (Nat.succ_lt_succ hi)
        have he : k + (i + 1) = k + 1 + i := by omega
        exact ⟨r2, by rw [← he]; exact hr2⟩
      simp only [generate_insights]
      rw [h0, ih (k + 1) j (by simpa using Nat.lt_of_succ_lt_succ hj) herr2 hpre2]
      rfl

/-- C9 (amended): the insight synthesizer makes exactly one text-generation
call per sheet — its result depends only on the outcomes of the calls
numbered for its sheets — and when all calls return, each sheet's insights
field receives the raw response, the empty response included, with no
failure.  A call that errors propagates as the stage's own failure and, the
stage being the first of the chained ones, any later stage composed after it
never runs and no report list is produced.  What the claim adds — failing on
an empty response — is refuted by the counterexample. -/
theorem insight_stage_amended (calls : Nat → Except Str Str) (sheets : List SheetState) (k : Nat) :
    (∀ calls2 : Nat → Except Str Str,
        (∀ i, i < sheets.length → calls (k + i) = calls2 (k + i)) →
        generate_insights calls sheets k = generate_insights calls2 sheets k)
    ∧ (∀ resp : Nat → Str,
        (∀ i, i < sheets.length → calls (k + i) = Except.ok (resp (k + i))) →
        generate_insights calls sheets k = Except.ok (setInsights resp sheets k))
    ∧ (∀ j msg, j < sheets.length → calls (k + j) = Except.error msg →
        (∀ i, i < j → ∃ r, calls (k + i) = Except.ok r) →
        generate_insights calls sheets k = Except.error (RunError.callFail msg)
        ∧ ∀ later : List SheetState → Except RunError (List (Str × Str)),
            (generate_insights calls sheets k).bind later
              = Except.error (RunError.callFail msg)) :=
  ⟨fun calls2 h => gi_ext calls calls2 sheets k h,
   fun resp h => gi_ok calls resp sheets k h,
   fun j msg hj he hp =>
     ⟨gi_err calls msg sheets k j hj he hp,
      fun later => by rw [gi_err calls msg sheets k j hj he hp]; rfl⟩⟩

/-- C9 witness: a run whose single call returns a non-empty response. -/
theorem insight_stage_witness :
    (∀ i, i < ([testSheet] : List SheetState).length →
        (fun _ => (Except.ok (("hi").toList) : Except Str Str)) (0 + i)
          = Except.ok ((fun _ => ("hi").toList) (0 + i)))
    ∧ generate_insights (fun _ => Except.ok (("hi").toList)) [testSheet] 0
        = Except.ok (setInsights (fun _ => ("hi").toList) [testSheet] 0) :=
  ⟨fun _ _ => rfl,
   (insight_stage_amended (fun _ => Except.ok (("hi").toList)) [testSheet] 0).2.1
     (fun _ => ("hi").toList) (fun _ _ => rfl)⟩

/-- A fully parseable pass of suggest_plots stores each parsed literal,
whatever its shape. -/
theorem sp_ok (responses : Nat → Str) (vs : Nat → PyLit) (sheets : List SheetState) :
    ∀ k, (∀ i, i < sheets.length → suggestPlotsParse (responses (k + i)) = some (vs (k + i))) →
      suggest_plots_stage responses sheets k = Except.ok (attachLits vs sheets k) := by
  induction sheets with
  | nil => intro k _; rfl
  | cons sheet rest ih =>
    intro k h
    have h0 : suggestPlotsParse (responses k) = some (vs k) := by simpa using h 0 (by simp)
    have h1 : ∀ i, i < rest.length →
        suggestPlotsParse (responses (k + 1 + i)) = some (vs (k + 1 + i)) := by
      intro i hi
      have hs := h (i + 1) (by simpa using Nat.succ_lt_succ hi)
      have he : k + (i + 1) = k + 1 + i := by omega
      rw [he] at hs
      exact hs
    simp only [suggest_plots_stage, attachLits]
    rw [h0, ih (k + 1) h1]
    rfl

/-- The first unparseable response makes suggest_plots raise. -/
theorem sp_err (responses : Nat → Str) (sheets : List SheetState) :
    ∀ k j, j < sheets.length → suggestPlotsParse (responses (k + j)) = none →
      (∀ i, i < j → suggestPlotsParse (responses (k + i)) ≠ none) →
      suggest_plots_stage responses sheets k = Except.error RunError.parseFail := by
  induction sheets with
  | nil =>
    intro k j hj _ _
    exact absurd hj (by simp)
  | cons sheet rest ih =>
    intro k j hj hnone hpre
    cases j with
    | zero =>
      have h0 : suggestPlotsParse (responses k) = none := by simpa using hnone
      simp only [suggest_plots_stage]
      rw [h0]
    | succ j =>
      have hne : suggestPlotsParse (responses k) ≠ none := by
        have := hpre 0 (Nat.succ_pos j)
        simpa using this
      rcases hv : suggestPlotsParse (responses k) with _ | v
      · exact absurd hv hne
      · have hnone2 : suggestPlotsParse (responses (k + 1 + j)) = none := by
          have he : k + (j + 1) = k + 1 + j := by omega
          rw [← he]
          exact hnone
        have hpre2 : ∀ i, i < j → suggestPlotsParse (responses (k + 1 + i)) ≠ none := by
          intro i hi
          have hp := hpre (i + 1) (Nat.succ_lt_succ hi)
          have he : k + (i + 1) = k + 1 + i := by omega
          rw [he] at hp
          exact hp
        simp only [suggest_plots_stage]
        rw [hv, ih (k + 1) j (by simpa using Nat.lt_of_succ_lt_succ hj) hnone2 hpre2]
        rfl

/-- C4 (amended): after stripping, the planner hands the text to generic
literal evaluation: the stage succeeds exactly on well-formed literals,
storing each parsed value with no shape validation — in particular
well-formed mappings without the plot and description fields are accepted
silently — and raises a parse failure only when some response's stripped
text is not a well-formed literal. -/
theorem planner_no_shape_check_amended (responses : Nat → Str) (sheets : List SheetState) (k : Nat) :
    (∀ vs : Nat → PyLit,
        (∀ i, i < sheets.length → suggestPlotsParse (responses (k + i)) = some (vs (k + i))) →
        suggest_plots_stage responses sheets k = Except.ok (attachLits vs sheets k))
    ∧ (∀ j, j < sheets.length → suggestPlotsParse (responses (k + j)) = none →
        (∀ i, i < j → suggestPlotsParse (responses (k + i)) ≠ none) →
        suggest_plots_stage responses sheets k = Except.error RunError.parseFail)
    ∧ ∃ raw v, suggestPlotsParse raw = some v ∧ specShapedMapping v = false :=
  ⟨fun vs h => sp_ok responses vs sheets k h,
   fun j hj hn hp => sp_err responses sheets k j hj hn hp,
   ⟨("\x7b\"chart1\": \x7b\"foo\": 0\x7d\x7d").toList, badLit, rfl, rfl⟩⟩

/-- C4 witness: a single response holding the ill-shaped mapping; the stage
accepts it and stores the literal unchanged. -/
theorem planner_no_shape_check_witness :
    (∀ i, i < ([testSheet] : List SheetState).length →
        suggestPlotsParse ((fun _ => ("\x7b\"chart1\": \x7b\"foo\": 0\x7d\x7d").toList) (0 + i))
          = some ((fun _ => badLit) (0 + i)))
    ∧ suggest_plots_stage (fun _ => ("\x7b\"chart1\": \x7b\"foo\": 0\x7d\x7d").toList)
        [testSheet] 0
        = Except.ok (attachLits (fun _ => badLit) [testSheet] 0) :=
  ⟨fun _ _ => rfl,
   (planner_no_shape_check_amended
      (fun _ => ("\x7b\"chart1\": \x7b\"foo\": 0\x7d\x7d").toList) [testSheet] 0).1
     (fun _ => badLit) (fun _ _ => rfl)⟩

/-- A list is a prefix of itself followed by anything. -/
theorem isPrefixOf_self_append (p r : Str) : p.isPrefixOf (p ++ r) = true := by
  induction p with
  | nil =>
    cases r with
    | nil => rfl
    | cons b bs => rfl
  | cons a p ih => simp [List.isPrefixOf, ih]

/-- Appending a suffix makes endswith of that suffix true. -/
theorem endswith_append (l s : Str) : pyEndswith (l ++ s) s = true := by
  unfold pyEndswith List.isSuffixOf
  rw [List.reverse_append]
  exact isPrefixOf_self_append _ _

/-- lstrip drops a leading whitespace character. -/
theorem lstrip_cons_ws (c : Char) (l : Str) (h : isPySpace c = true) :
    pyLstrip (c :: l) = pyLstrip l := by
  simp [pyLstrip, List.dropWhile_cons, h]

/-- lstrip stops at a leading non-whitespace character. -/
theorem lstrip_cons_nows (c : Char) (l : Str) (h : isPySpace c = false) :
    pyLstrip (c :: l) = c :: l := by
  simp [pyLstrip, List.dropWhile_cons, h]

/-- rstrip keeps a string ending in a non-whitespace character. -/
theorem rstrip_snoc (l : Str) (c : Char) (h : isPySpace c = false) :
    pyRstrip (l ++ [c]) = l ++ [c] := by
  simp [pyRstrip, List.dropWhile_cons, h]

/-- rstrip removes one trailing whitespace character guarded by a
non-whitespace character. -/
theorem rstrip_snoc_ws (l : Str) (c w : Char) (hc : isPySpace c = false)
    (hw : isPySpace w = true) :
    pyRstrip ((l ++ [c]) ++ [w]) = l ++ [c] := by
  simp [pyRstrip, List.dropWhile_cons, hc, hw]

/-- rstrip keeps the fence-tail shape intact: it ends in a backtick. -/
theorem rstrip_fence_tail (mid : Str) :
    pyRstrip ('\x7b' :: ((mid ++ ['\x7d']) ++ (['\n', '`', '`', '`'] : Str)))
      = '\x7b' :: ((mid ++ ['\x7d']) ++ (['\n', '`', '`', '`'] : Str)) := by
  have shape : '\x7b' :: ((mid ++ ['\x7d']) ++ (['\n', '`', '`', '`'] : Str))
      = ('\x7b' :: ((mid ++ ['\x7d']) ++ (['\n', '`', '`'] : Str))) ++ ['`'] := by
    simp
  rw [shape]
  exact rstrip_snoc _ _ (by decide)

/-- Stripping the text left after removing the opening json fence: the
leading newline goes, the rest is kept because it ends in a backtick. -/
theorem strip_after_fence (mid : Str) :
    pyStrip ('\n' :: (('\x7b' :: (mid ++ ['\x7d'])) ++ (['\n', '`', '`', '`'] : Str)))
      = '\x7b' :: ((mid ++ ['\x7d']) ++ (['\n', '`', '`', '`'] : Str)) := by
  show pyRstrip (pyLstrip _) = _
  rw [lstrip_cons_ws _ _ (by decide), List.cons_append, lstrip_cons_nows _ _ (by decide)]
  exact rstrip_fence_tail mid

/-- Stripping after the closing ticks are sliced off: the trailing newline
goes, the braced body is kept. -/
theorem strip_after_ticks (mid : Str) :
    pyStrip ('\x7b' :: ((mid ++ ['\x7d']) ++ ['\n'])) = '\x7b' :: (mid ++ ['\x7d']) := by
  show pyRstrip (pyLstrip _) = _
  rw [lstrip_cons_nows _ _ (by decide)]
  have shape : '\x7b' :: ((mid ++ ['\x7d']) ++ ['\n']) = (('\x7b' :: mid) ++ ['\x7d']) ++ ['\n'] := by
    simp
  rw [shape, rstrip_snoc_ws _ _ _ (by decide) (by decide)]
  simp

/-- The source's fence stripping undoes a json-fenced wrapping of any braced
body exactly. -/
theorem stripFences_jsonWrap (mid : Str) :
    stripFences (fenceWrap ('\x7b' :: (mid ++ ['\x7d']))) = '\x7b' :: (mid ++ ['\x7d']) := by
  have hwrap : fenceWrap ('\x7b' :: (mid ++ ['\x7d']))
      = '`' :: '`' :: '`' :: 'j' :: 's' :: 'o' :: 'n' :: '\n' ::
        (('\x7b' :: (mid ++ ['\x7d'])) ++ (['\n', '`', '`', '`'] : Str)) := rfl
  have e1 : pyStartswith
      ('`' :: '`' :: '`' :: 'j' :: 's' :: 'o' :: 'n' :: '\n' ::
        (('\x7b' :: (mid ++ ['\x7d'])) ++ (['\n', '`', '`', '`'] : Str)))
      (("```json").toList) = true := rfl
  have e2 : (('`' :: '`' :: '`' :: 'j' :: 's' :: 'o' :: 'n' :: '\n' ::
        (('\x7b' :: (mid ++ ['\x7d'])) ++ (['\n', '`', '`', '`'] : Str)) : Str)).drop
        (("```json").toList).length
      = '\n' :: (('\x7b' :: (mid ++ ['\x7d'])) ++ (['\n', '`', '`', '`'] : Str)) := rfl
  have e4 : pyEndswith ('\x7b' :: ((mid ++ ['\x7d']) ++ (['\n', '`', '`', '`'] : Str)))
      (("```").toList) = true := by
    have shape : '\x7b' :: ((mid ++ ['\x7d']) ++ (['\n', '`', '`', '`'] : Str))
        = ('\x7b' :: ((mid ++ ['\x7d']) ++ ['\n'])) ++ (("```").toList) := by
      simp
    rw [shape]
    exact endswith_append _ _
  have e5 : ('\x7b' :: ((mid ++ ['\x7d']) ++ (['\n', '`', '`', '`'] : Str))).take
      (('\x7b' :: ((mid ++ ['\x7d']) ++ (['\n', '`', '`', '`'] : Str))).length
        - (("```").toList).length)
      = '\x7b' :: ((mid ++ ['\x7d']) ++ ['\n']) := by
    have hl : ('\x7b' :: ((mid ++ ['\x7d']) ++ (['\n', '`', '`', '`'] : Str))).length
        - (("```").toList).length
        = ('\x7b' :: ((mid ++ ['\x7d']) ++ ['\n'])).length := by
      simp
    rw [hl]
    have shape : '\x7b' :: ((mid ++ ['\x7d']) ++ (['\n', '`', '`', '`'] : Str))
        = ('\x7b' :: ((mid ++ ['\x7d']) ++ ['\n'])) ++ (['`', '`', '`'] : Str) := by
      simp
    rw [shape]
    exact List.take_left _ _
  rw [hwrap]
  simp only [stripFences, e1, if_true, e2, strip_after_fence, e4, e5, strip_after_ticks]

/-- The source's fence stripping leaves an unwrapped braced body alone. -/
theorem stripFences_braced (mid : Str) :
    stripFences ('\x7b' :: (mid ++ ['\x7d'])) = '\x7b' :: (mid ++ ['\x7d']) := by
  have e1 : pyStartswith ('\x7b' :: (mid ++ ['\x7d']))
      (['`', '`', '`', 'j', 's', 'o', 'n'] : Str) = false := rfl
  have e2 : pyEndswith ('\x7b' :: (mid ++ ['\x7d'])) (['`', '`', '`'] : Str) = false := by
    have hrev : ('\x7b' :: (mid ++ ['\x7d'])).reverse = '\x7d' :: (mid.reverse ++ ['\x7b']) := by
      simp
    unfold pyEndswith List.isSuffixOf
    rw [hrev]
    rfl
  simp [stripFences, e1, e2]

/-- C2 (amended): the stripping is exact for the fence dialect the source
handles.  For every braced body, wrapping it in a json-tagged fenced code
block and then strip-and-parsing yields exactly what parsing the bare body
yields; the counterexample shows the same is false for a fence without the
json tag, so not every fenced wrapping is tolerated. -/
theorem fence_strip_json_amended (mid : Str) :
    suggestPlotsParse (fenceWrap ('\x7b' :: (mid ++ ['\x7d'])))
      = suggestPlotsParse ('\x7b' :: (mid ++ ['\x7d'])) := by
  unfold suggestPlotsParse
  rw [stripFences_jsonWrap, stripFences_braced]

end App
